import Mathlib

/-!
Verification of the picar `pi-server` motor-control and camera-broadcast
engines against their natural-language specification.

This file contains a shallow embedding of the relevant parts of
`src/pi-server/config.py`, `src/pi-server/car_controller.py`,
`src/pi-server/camera_stream.py` and `src/pi-server/server.py`, followed by
theorems settling the specification claims.

Modelling conventions:
- Python floats (joystick axes, timestamps) are embedded as `ℚ` with exact
  arithmetic; every concrete input used in a counterexample is dyadic, so
  binary floating point computes exactly the same values there.
- Python `int(...)` (truncation toward zero) is embedded as `pyInt`.
- GPIO is assumed available and both PWM enable pins configured (as in
  `config.py`, `MOTOR_A_ENABLE = 12`, `MOTOR_B_ENABLE = 13`), so every
  `_set_motor_*` call resolves to a direction-pin pattern plus a PWM duty
  cycle.  A motor's physical output is the record `MotorOutput`.
- JPEG byte strings are `List ℕ`; the Python buffer `current_frame` starts
  as `None` and is embedded as `Option (List ℕ)`.
-/

namespace PiCar

/-! ### Configuration constants, from `src/pi-server/config.py` -/

namespace Config

/-- `MOTOR_A_INVERTED = False` (config.py line 47). -/
def MOTOR_A_INVERTED : Bool := false

/-- `MOTOR_B_INVERTED = False` (config.py line 48). -/
def MOTOR_B_INVERTED : Bool := false

/-- `JOYSTICK_DEAD_ZONE = 0.15` (config.py line 52). -/
def JOYSTICK_DEAD_ZONE : ℚ := 15 / 100

/-- `MIN_MOTOR_SPEED = 40` (config.py line 56). -/
def MIN_MOTOR_SPEED : ℚ := 40

/-- `MAX_MOTOR_SPEED = 100` (config.py line 57). -/
def MAX_MOTOR_SPEED : ℚ := 100

/-- `AUTO_STOP_TIMEOUT = 2.0` (config.py line 107). -/
def AUTO_STOP_TIMEOUT : ℚ := 2

/-- `ENABLE_WATCHDOG = True` (config.py line 110). -/
def ENABLE_WATCHDOG : Bool := true

end Config

/-! ### Motor / controller state, from `src/pi-server/car_controller.py` -/

/-- Physical output state of one motor: the two direction-control pins
(`True` = HIGH) and the PWM duty cycle last written via
`ChangeDutyCycle`. -/
structure MotorOutput where
  pin1 : Bool
  pin2 : Bool
  duty : ℤ
  deriving DecidableEq

/-- The motor output produced by `_set_motor_a` / `_set_motor_b`
(car_controller.py lines 76-132): apply the inversion flag, drive the pins
(HIGH,LOW) for direction `1`, (LOW,HIGH) for `-1`, (LOW,LOW) otherwise, and
set the duty cycle to `speed` when the (inverted) direction is nonzero, else
`0`. -/
def motor_output (inverted : Bool) (direction : ℤ) (speed : ℤ) : MotorOutput :=
  let d := if inverted then -direction else direction
  { pin1 := d == 1
    pin2 := d == -1
    duty := if d == 0 then 0 else speed }

/-- The observable state of `CarController`: both motor outputs plus
`self.last_command_time` (the `DriveState` of the spec). -/
structure CarState where
  motorA : MotorOutput
  motorB : MotorOutput
  last_command_time : ℚ
  deriving DecidableEq

/-- `_set_motor_a(direction, speed)` (car_controller.py lines 76-103). -/
def set_motor_a (s : CarState) (direction : ℤ) (speed : ℤ) : CarState :=
  { s with motorA := motor_output Config.MOTOR_A_INVERTED direction speed }

/-- `_set_motor_b(direction, speed)` (car_controller.py lines 105-132). -/
def set_motor_b (s : CarState) (direction : ℤ) (speed : ℤ) : CarState :=
  { s with motorB := motor_output Config.MOTOR_B_INVERTED direction speed }

/-- `CarController.stop` (car_controller.py lines 246-251): set both motors
to direction `0`, speed `0`.  Note: it does not touch
`last_command_time`. -/
def stop (s : CarState) : CarState :=
  set_motor_b (set_motor_a s 0 0) 0 0

/-- The pin/duty state of a stopped motor: both direction pins LOW, duty
cycle `0`. -/
def stopped_output : MotorOutput := ⟨false, false, 0⟩

/-- Python `max(-1.0, min(1.0, v))` as used throughout
`car_controller.py`. -/
def clamp1 (v : ℚ) : ℚ := max (-1) (min 1 v)

/-- The per-axis dead-zone filter (`if abs(v) < config.JOYSTICK_DEAD_ZONE:
v = 0.0`, car_controller.py lines 149-152 and 205-208). -/
def dead_zone_filter (v : ℚ) : ℚ :=
  if |v| < Config.JOYSTICK_DEAD_ZONE then 0 else v

/-- Python `int(q)`: truncation toward zero. -/
def pyInt (q : ℚ) : ℤ := if 0 ≤ q then ⌊q⌋ else ⌈q⌉

/-- `CarController._map_speed` (car_controller.py lines 229-244): magnitudes
below the dead zone map to `0`; otherwise
`int(MIN_MOTOR_SPEED + normalized_speed * (MAX_MOTOR_SPEED -
MIN_MOTOR_SPEED))` — note the Python `int()` truncation. -/
def map_speed (normalized_speed : ℚ) : ℤ :=
  if normalized_speed < Config.JOYSTICK_DEAD_ZONE then 0
  else pyInt (Config.MIN_MOTOR_SPEED +
    normalized_speed * (Config.MAX_MOTOR_SPEED - Config.MIN_MOTOR_SPEED))

/-- The speed mapping as the specification words it (`duty = 0` below the
dead zone, else `round(min_speed + magnitude * (max_speed - min_speed))`,
rounded to the nearest integer).  Declared only to compare with the
source-derived `map_speed`. -/
def map_speed_spec (normalized_speed : ℚ) : ℤ :=
  if normalized_speed < Config.JOYSTICK_DEAD_ZONE then 0
  else round (Config.MIN_MOTOR_SPEED +
    normalized_speed * (Config.MAX_MOTOR_SPEED - Config.MIN_MOTOR_SPEED))

/-- Direction from the sign of a mixed speed (`1 if v > 0 else (-1 if v < 0
else 0)`, car_controller.py lines 174-175 and 214-215). -/
def sign_dir (v : ℚ) : ℤ := if v > 0 then 1 else if v < 0 then -1 else 0

/-- The differential-drive mixing stage of `process_joystick_input`
(car_controller.py lines 144-171): clamp both axes, apply the per-axis dead
zone, then `left = clamp(y - x)`, `right = clamp(y + x)`. -/
def joystick_mix (x y : ℚ) : ℚ × ℚ :=
  let xf := dead_zone_filter (clamp1 x)
  let yf := dead_zone_filter (clamp1 y)
  (clamp1 (yf - xf), clamp1 (yf + xf))

/-- `CarController.process_joystick_input` (car_controller.py lines
134-190): record the command time, clamp and dead-zone both axes, stop when
both are zero, otherwise mix differentially and actuate both motors. -/
def process_joystick_input (s : CarState) (now x y : ℚ) : CarState :=
  let s1 : CarState := { s with last_command_time := now }
  let xf := dead_zone_filter (clamp1 x)
  let yf := dead_zone_filter (clamp1 y)
  if xf = 0 ∧ yf = 0 then stop s1
  else
    let ls := (joystick_mix x y).1
    let rs := (joystick_mix x y).2
    set_motor_b (set_motor_a s1 (sign_dir ls) (map_speed |ls|))
      (sign_dir rs) (map_speed |rs|)

/-- `CarController.process_dual_input` (car_controller.py lines 192-227):
record the command time, clamp and dead-zone each lever independently, stop
when both are zero, otherwise actuate each motor from its own lever. -/
def process_dual_input (s : CarState) (now l r : ℚ) : CarState :=
  let s1 : CarState := { s with last_command_time := now }
  let lf := dead_zone_filter (clamp1 l)
  let rf := dead_zone_filter (clamp1 r)
  if lf = 0 ∧ rf = 0 then stop s1
  else
    set_motor_b (set_motor_a s1 (sign_dir lf) (map_speed |lf|))
      (sign_dir rf) (map_speed |rf|)

/-- `CarController.check_watchdog` (car_controller.py lines 281-292): do
nothing when the watchdog is disabled; otherwise stop the motors when
`now - last_command_time > AUTO_STOP_TIMEOUT`. -/
def check_watchdog (s : CarState) (now : ℚ) : CarState :=
  if Config.ENABLE_WATCHDOG then
    if now - s.last_command_time > Config.AUTO_STOP_TIMEOUT then stop s
    else s
  else s

/-! ### WebSocket control handlers, from `src/pi-server/server.py` -/

/-- A parsed control message: its `type` field, and for the recognized
types the optional numeric payload fields (`none` models an absent
field). -/
inductive ControlMsg where
  | control (x y : Option ℚ)
  | dual (left right : Option ℚ)
  | other (t : String)
  deriving DecidableEq

/-- `handle_control` (server.py lines 262-315), with the car controller
present: `dual` messages read `left`/`right` with default `0` and are
processed with no range check; unknown types are ignored; `control`
messages read `x`/`y` with default `0` and are rejected (no state change)
unless both lie in `[-1, 1]`. -/
def handle_control (s : CarState) (now : ℚ) (msg : ControlMsg) : CarState :=
  match msg with
  | .dual l r => process_dual_input s now (l.getD 0) (r.getD 0)
  | .other _ => s
  | .control ox oy =>
    let x := ox.getD 0
    let y := oy.getD 0
    if -1 ≤ x ∧ x ≤ 1 ∧ -1 ≤ y ∧ y ≤ 1 then process_joystick_input s now x y
    else s

/-- `handle_disconnect` (server.py lines 253-259), with the car controller
present: stop the motors. -/
def handle_disconnect (s : CarState) : CarState := stop s

/-! ### Camera stream, from `src/pi-server/camera_stream.py` -/

/-- The shared broadcast buffer: `self.current_frame` (initially `None`)
and `self.frame_counter` (initially `0`), both written under
`self.frame_lock` (camera_stream.py lines 60-62 and 141-143). -/
structure BufState where
  frame : Option (List ℕ)
  counter : ℕ
  deriving DecidableEq

/-- The buffer at `CameraStream.__init__`: no frame, counter `0`. -/
def initBuf : BufState := ⟨none, 0⟩

/-- One publish step of `_capture_frames` (camera_stream.py lines 138-143):
whatever `_encode_jpeg` returned — on an encoder error that is the empty
byte string `b''` (camera_stream.py lines 248-250) — is stored as the
current frame and the counter is incremented. -/
def captureIter (b : BufState) (jpeg_buffer : List ℕ) : BufState :=
  { frame := some jpeg_buffer, counter := b.counter + 1 }

/-- The buffer state after the first `i` publishes of the capture loop. -/
def stateAt (pubs : List (List ℕ)) (i : ℕ) : BufState :=
  (pubs.take i).foldl captureIter initBuf

/-- One locked read of `(self.current_frame, self.frame_counter)` as
performed by a streaming session (camera_stream.py lines 192-194), taken
when `i` publishes have completed. -/
def readAt (pubs : List (List ℕ)) (i : ℕ) : Option (List ℕ) × ℕ :=
  ((stateAt pubs i).frame, (stateAt pubs i).counter)

/-- The streaming loop of `generate_frames` (camera_stream.py lines
188-209) over a finite schedule of buffer reads: starting from
`last_frame_id = -1`, each poll emits the frame-counter pair and updates
`last_frame_id` exactly when the read frame is truthy (not `None`, not
empty) and its counter differs from `last_frame_id`. -/
def sessionLoop (last : ℤ) : List (Option (List ℕ) × ℕ) → List (List ℕ × ℕ)
  | [] => []
  | (some bs, c) :: rest =>
    if bs ≠ [] ∧ (c : ℤ) ≠ last then (bs, c) :: sessionLoop (c : ℤ) rest
    else sessionLoop last rest
  | (none, _) :: rest => sessionLoop last rest

/-- The sequence of frame versions a session emits over a schedule of
reads. -/
def session_versions (reads : List (Option (List ℕ) × ℕ)) : List ℕ :=
  (sessionLoop (-1) reads).map Prod.snd

/-- The placeholder frame produced by `_generate_placeholder_frame`
(camera_stream.py lines 252-287); its bytes are irrelevant to the claims,
only that it is a single fixed frame (it starts with the JPEG SOI marker
0xFF 0xD8). -/
def placeholder_frame : List ℕ := [255, 216]

/-- `generate_frames` (camera_stream.py lines 160-218): when the camera was
never initialized, emit the placeholder once and terminate; otherwise run
the polling loop over the session's schedule of buffer reads. -/
def generate_frames (is_initialized : Bool)
    (reads : List (Option (List ℕ) × ℕ)) : List (List ℕ) :=
  if is_initialized then (sessionLoop (-1) reads).map Prod.fst
  else [placeholder_frame]

/-- `_start_frame_capture` (camera_stream.py lines 113-121): returns
whether the capture thread is started (it returns immediately, starting
nothing, when the camera is not initialized). -/
def start_frame_capture (is_initialized : Bool) : Bool := is_initialized

/-! ### Helper lemmas -/

/-- A stopped/fresh controller state used as a concrete input. -/
def s_init : CarState := ⟨stopped_output, stopped_output, 0⟩

/-- A motor that is currently driven forward, used as a concrete input. -/
def moving_output : MotorOutput := ⟨true, false, 70⟩

theorem set_motor_a_last (s : CarState) (d v : ℤ) :
    (set_motor_a s d v).last_command_time = s.last_command_time := rfl

theorem set_motor_b_last (s : CarState) (d v : ℤ) :
    (set_motor_b s d v).last_command_time = s.last_command_time := rfl

theorem stop_last (s : CarState) :
    (stop s).last_command_time = s.last_command_time := rfl

theorem stop_motorA (s : CarState) : (stop s).motorA = stopped_output := rfl

theorem stop_motorB (s : CarState) : (stop s).motorB = stopped_output := rfl

theorem process_joystick_input_last (s : CarState) (now x y : ℚ) :
    (process_joystick_input s now x y).last_command_time = now := by
  simp only [process_joystick_input]
  split <;> rfl

theorem process_dual_input_last (s : CarState) (now l r : ℚ) :
    (process_dual_input s now l r).last_command_time = now := by
  simp only [process_dual_input]
  split <;> rfl

theorem check_watchdog_of_le (s : CarState) (now : ℚ)
    (h : now - s.last_command_time ≤ Config.AUTO_STOP_TIMEOUT) :
    check_watchdog s now = s := by
  unfold check_watchdog
  simp [Config.ENABLE_WATCHDOG, not_lt.mpr h]

theorem check_watchdog_of_gt (s : CarState) (now : ℚ)
    (h : now - s.last_command_time > Config.AUTO_STOP_TIMEOUT) :
    check_watchdog s now = stop s := by
  unfold check_watchdog
  simp [Config.ENABLE_WATCHDOG, h]

/-! ### Claim C10 -/

/-- Claim C10: on every client WebSocket disconnect event the server
commands both motors to Stop immediately — `handle_disconnect` applies
`stop` unconditionally (it takes no time parameter at all, so no watchdog
timeout is involved), driving both direction-control pins LOW/LOW and duty
cycle 0 on each motor. -/
theorem c10_disconnect_stops_motors (s : CarState) :
    handle_disconnect s = stop s ∧
    (handle_disconnect s).motorA = stopped_output ∧
    (handle_disconnect s).motorB = stopped_output :=
  ⟨rfl, rfl, rfl⟩

/-! ### Claim C7 -/

/-- Claim C7: when the camera is unavailable at startup
(`is_initialized = false`), the capture loop never starts
(`start_frame_capture` starts nothing) and every new stream session emits
exactly the one placeholder frame and terminates, whatever buffer reads
its schedule would have offered. -/
theorem c7_placeholder_once (reads : List (Option (List ℕ) × ℕ)) :
    generate_frames false reads = [placeholder_frame] ∧
    start_frame_capture false = false :=
  ⟨rfl, rfl⟩

/-! ### Claim C2 -/

/-- Claim C2 counterexample: with the buffer holding frame `[7]` at version
5, a capture iteration whose encoder failed (so `_encode_jpeg` returned the
empty byte string) still publishes: the version counter advances to 6 and
the stored frame is no longer `[7]`. -/
theorem c2_counterexample :
    (captureIter ⟨some [7], 5⟩ []).counter ≠ 5 ∧
    (captureIter ⟨some [7], 5⟩ []).frame ≠ some [7] := by
  decide

/-- Claim C2 (amended): on encoder failure the capture loop still publishes
— the buffer then holds the empty byte string and the version counter
advances by one — but a stream session never emits an empty frame (the
emit guard requires a truthy frame), so viewers keep displaying the last
good frame they received. -/
theorem c2_amended_failure_publishes_empty :
    (∀ b : BufState, (captureIter b []).frame = some [] ∧
      (captureIter b []).counter = b.counter + 1) ∧
    (∀ (last : ℤ) (c : ℕ) (rest : List (Option (List ℕ) × ℕ)),
      sessionLoop last ((some [], c) :: rest) = sessionLoop last rest) := by
  refine ⟨fun b => ⟨rfl, rfl⟩, fun last c rest => ?_⟩
  simp [sessionLoop]

/-! ### Claim C6 -/

/-- Claim C6 counterexample: at magnitude `13/16` (exactly representable in
binary floating point; the mapped value is `88.75`) the source's
`_map_speed` truncates to 88, while the spec's rounding function produces
89. -/
theorem c6_counterexample :
    map_speed (13/16) = 88 ∧ map_speed_spec (13/16) = 89 ∧
    map_speed (13/16) ≠ map_speed_spec (13/16) := by
  refine ⟨?_, ?_, ?_⟩
  · norm_num [map_speed, pyInt, Config.JOYSTICK_DEAD_ZONE,
      Config.MIN_MOTOR_SPEED, Config.MAX_MOTOR_SPEED]
  · rw [map_speed_spec]
    norm_num [Config.JOYSTICK_DEAD_ZONE, Config.MIN_MOTOR_SPEED,
      Config.MAX_MOTOR_SPEED, round_eq]
  · have h1 : map_speed (13/16) = 88 := by
      norm_num [map_speed, pyInt, Config.JOYSTICK_DEAD_ZONE,
        Config.MIN_MOTOR_SPEED, Config.MAX_MOTOR_SPEED]
    have h2 : map_speed_spec (13/16) = 89 := by
      rw [map_speed_spec]
      norm_num [Config.JOYSTICK_DEAD_ZONE, Config.MIN_MOTOR_SPEED,
        Config.MAX_MOTOR_SPEED, round_eq]
    rw [h1, h2]
    norm_num

/-- Claim C6 (amended): `_map_speed` returns 0 for every magnitude strictly
below the dead zone, and for every magnitude `m` in `[dead_zone, 1]` it
returns `min_speed + m * (max_speed - min_speed)` truncated by Python
`int()` (the floor, since the value is positive) — not rounded to nearest —
and the result always lies in `[min_speed, max_speed]`. -/
theorem c6_amended_truncation :
    (∀ m : ℚ, m < Config.JOYSTICK_DEAD_ZONE → map_speed m = 0) ∧
    (∀ m : ℚ, Config.JOYSTICK_DEAD_ZONE ≤ m → m ≤ 1 →
      map_speed m =
        ⌊Config.MIN_MOTOR_SPEED +
          m * (Config.MAX_MOTOR_SPEED - Config.MIN_MOTOR_SPEED)⌋ ∧
      Config.MIN_MOTOR_SPEED ≤ (map_speed m : ℚ) ∧
      (map_speed m : ℚ) ≤ Config.MAX_MOTOR_SPEED) := by
  constructor
  · intro m hm
    unfold map_speed
    exact if_pos hm
  · intro m hlo hhi
    have hmul : (9 : ℚ) ≤ m * 60 := by
      have h60 : (0 : ℚ) ≤ 60 := by norm_num
      have := mul_le_mul_of_nonneg_right hlo h60
      rw [Config.JOYSTICK_DEAD_ZONE] at this
      linarith
    have hq : (49 : ℚ) ≤ Config.MIN_MOTOR_SPEED +
        m * (Config.MAX_MOTOR_SPEED - Config.MIN_MOTOR_SPEED) := by
      rw [Config.MIN_MOTOR_SPEED, Config.MAX_MOTOR_SPEED]
      linarith
    have hq100 : Config.MIN_MOTOR_SPEED +
        m * (Config.MAX_MOTOR_SPEED - Config.MIN_MOTOR_SPEED) ≤ 100 := by
      rw [Config.MIN_MOTOR_SPEED, Config.MAX_MOTOR_SPEED]
      nlinarith
    have heq : map_speed m =
        ⌊Config.MIN_MOTOR_SPEED +
          m * (Config.MAX_MOTOR_SPEED - Config.MIN_MOTOR_SPEED)⌋ := by
      unfold map_speed pyInt
      rw [if_neg (not_lt.mpr hlo), if_pos (by linarith)]
    refine ⟨heq, ?_, ?_⟩
    · rw [heq]
      have : (40 : ℤ) ≤ ⌊Config.MIN_MOTOR_SPEED +
          m * (Config.MAX_MOTOR_SPEED - Config.MIN_MOTOR_SPEED)⌋ :=
        Int.le_floor.mpr (by push_cast; linarith)
      rw [Config.MIN_MOTOR_SPEED]
      exact_mod_cast this
    · rw [heq]
      have hfl := Int.floor_le (Config.MIN_MOTOR_SPEED +
        m * (Config.MAX_MOTOR_SPEED - Config.MIN_MOTOR_SPEED))
      rw [Config.MAX_MOTOR_SPEED]
      calc ((⌊Config.MIN_MOTOR_SPEED +
          m * (Config.MAX_MOTOR_SPEED - Config.MIN_MOTOR_SPEED)⌋ : ℚ))
          ≤ Config.MIN_MOTOR_SPEED +
            m * (Config.MAX_MOTOR_SPEED - Config.MIN_MOTOR_SPEED) := hfl
        _ ≤ 100 := hq100

/-- Witness for the amended C6 at concrete magnitudes: `1/10` is below the
dead zone and maps to 0; `1/2` is in range and maps to the floor value 70,
inside `[40, 100]`. -/
theorem c6_amended_truncation_witness :
    map_speed (1/10) = 0 ∧
    (map_speed (1/2) =
        ⌊Config.MIN_MOTOR_SPEED +
          (1/2) * (Config.MAX_MOTOR_SPEED - Config.MIN_MOTOR_SPEED)⌋ ∧
      Config.MIN_MOTOR_SPEED ≤ (map_speed (1/2) : ℚ) ∧
      (map_speed (1/2) : ℚ) ≤ Config.MAX_MOTOR_SPEED) :=
  ⟨c6_amended_truncation.1 (1/10)
      (by norm_num [Config.JOYSTICK_DEAD_ZONE]),
    c6_amended_truncation.2 (1/2)
      (by norm_num [Config.JOYSTICK_DEAD_ZONE]) (by norm_num)⟩

/-! ### Claim C1 -/

/-- Claim C1: with `AUTO_STOP_TIMEOUT = 2.0` and the watchdog enabled, a
tick strictly more than 2 seconds after the last accepted command stops
both motors, while a tick within 2 seconds of an accepted command (such as
one arriving at 1.9s before a tick at the original 2.0s mark) leaves the
state untouched — for joystick as well as dual-lever commands. -/
theorem c1_watchdog_timeout_and_reset :
    (∀ (s : CarState) (t0 x y t : ℚ), t - t0 > Config.AUTO_STOP_TIMEOUT →
      (check_watchdog (process_joystick_input s t0 x y) t).motorA = stopped_output ∧
      (check_watchdog (process_joystick_input s t0 x y) t).motorB = stopped_output) ∧
    (∀ (s : CarState) (t1 t2 x y : ℚ), t2 - t1 ≤ Config.AUTO_STOP_TIMEOUT →
      check_watchdog (process_joystick_input s t1 x y) t2 =
        process_joystick_input s t1 x y) ∧
    (∀ (s : CarState) (t1 t2 l r : ℚ), t2 - t1 ≤ Config.AUTO_STOP_TIMEOUT →
      check_watchdog (process_dual_input s t1 l r) t2 =
        process_dual_input s t1 l r) := by
  refine ⟨fun s t0 x y t h => ?_, fun s t1 t2 x y h => ?_, fun s t1 t2 l r h => ?_⟩
  · rw [check_watchdog_of_gt _ _ (by rwa [process_joystick_input_last])]
    exact ⟨stop_motorA _, stop_motorB _⟩
  · exact check_watchdog_of_le _ _ (by rwa [process_joystick_input_last])
  · exact check_watchdog_of_le _ _ (by rwa [process_dual_input_last])

/-- Witness for C1: a nonzero joystick command at time 0 followed by a tick
at 2.5s stops both motors; a command at 1.9s followed by the tick at the
2.0s mark changes nothing. -/
theorem c1_watchdog_timeout_and_reset_witness :
    ((check_watchdog (process_joystick_input s_init 0 0 1) (5/2)).motorA =
        stopped_output ∧
      (check_watchdog (process_joystick_input s_init 0 0 1) (5/2)).motorB =
        stopped_output) ∧
    check_watchdog (process_joystick_input s_init (19/10) (1/2) (1/2)) 2 =
      process_joystick_input s_init (19/10) (1/2) (1/2) ∧
    check_watchdog (process_dual_input s_init (19/10) (1/2) (1/2)) 2 =
      process_dual_input s_init (19/10) (1/2) (1/2) :=
  ⟨c1_watchdog_timeout_and_reset.1 s_init 0 0 1 (5/2)
      (by norm_num [Config.AUTO_STOP_TIMEOUT]),
    c1_watchdog_timeout_and_reset.2.1 s_init (19/10) 2 (1/2) (1/2)
      (by norm_num [Config.AUTO_STOP_TIMEOUT]),
    c1_watchdog_timeout_and_reset.2.2 s_init (19/10) 2 (1/2) (1/2)
      (by norm_num [Config.AUTO_STOP_TIMEOUT])⟩

/-! ### Claim C3 -/

/-- Claim C3 counterexample: a watchdog tick at time 3 with
`last_command_time = 0` stops the motors, but `stop` leaves
`last_command_time` at 0 instead of refreshing it to the current time 3 —
so the watchdog's timeout condition holds again at every later tick. -/
theorem c3_counterexample :
    (check_watchdog ⟨moving_output, moving_output, 0⟩ 3).motorA =
      stopped_output ∧
    (check_watchdog ⟨moving_output, moving_output, 0⟩ 3).last_command_time ≠ 3 := by
  rw [check_watchdog_of_gt _ 3 (by norm_num [Config.AUTO_STOP_TIMEOUT])]
  refine ⟨stop_motorA _, ?_⟩
  rw [stop_last]
  norm_num

/-- Claim C3 (amended): Stop is idempotent on motor output — repeated calls
after the first never change the direction pins or duty cycles, which are
left at LOW/LOW and 0 — but `stop` does not touch `last_command_time`;
consequently, once the watchdog has fired, the timeout condition holds
again at every later tick (the repeated stop commands are harmless by
idempotence). -/
theorem c3_amended_stop_idempotent :
    (∀ s : CarState, stop (stop s) = stop s) ∧
    (∀ s : CarState, (stop s).motorA = stopped_output ∧
      (stop s).motorB = stopped_output) ∧
    (∀ s : CarState, (stop s).last_command_time = s.last_command_time) ∧
    (∀ (s : CarState) (t u : ℚ),
      t - s.last_command_time > Config.AUTO_STOP_TIMEOUT → t ≤ u →
      u - (check_watchdog s t).last_command_time > Config.AUTO_STOP_TIMEOUT) := by
  refine ⟨fun s => rfl, fun s => ⟨rfl, rfl⟩, fun s => rfl, fun s t u h htu => ?_⟩
  rw [check_watchdog_of_gt _ _ h, stop_last]
  linarith

/-- Witness for the amended C3: after the watchdog fires at time 3 on a
state last commanded at time 0, the timeout condition holds again at the
next tick at time 4. -/
theorem c3_amended_stop_idempotent_witness :
    (4 : ℚ) - (check_watchdog ⟨moving_output, moving_output, 0⟩ 3).last_command_time >
      Config.AUTO_STOP_TIMEOUT :=
  c3_amended_stop_idempotent.2.2.2 ⟨moving_output, moving_output, 0⟩ 3 4
    (by norm_num [Config.AUTO_STOP_TIMEOUT]) (by norm_num)

/-! ### Claim C4 -/

/-- Claim C4 counterexample: a `dual` message with `left = 2.0` (outside
`[-1, 1]`) arriving at time 5 on a stopped controller is not rejected: it
refreshes `last_command_time` to 5 and changes the left motor's output (the
value is clamped to 1 and the motor is driven forward at duty 100). -/
theorem c4_counterexample :
    (handle_control s_init 5 (.dual (some 2) (some 0))).last_command_time = 5 ∧
    s_init.last_command_time = 0 ∧
    (handle_control s_init 5 (.dual (some 2) (some 0))).motorA ≠ s_init.motorA := by
  refine ⟨?_, rfl, ?_⟩
  · norm_num [handle_control, process_dual_input, dead_zone_filter, clamp1,
      Config.JOYSTICK_DEAD_ZONE, stop, set_motor_a, set_motor_b, abs, max_def,
      min_def]
  · have h : (handle_control s_init 5 (.dual (some 2) (some 0))).motorA =
        ⟨true, false, 100⟩ := by
      norm_num [handle_control, process_dual_input, dead_zone_filter, clamp1,
        Config.JOYSTICK_DEAD_ZONE, stop, set_motor_a, set_motor_b, sign_dir,
        map_speed, pyInt, motor_output, Config.MOTOR_A_INVERTED,
        Config.MIN_MOTOR_SPEED, Config.MAX_MOTOR_SPEED, abs, max_def, min_def]
    rw [h]
    simp [s_init, stopped_output]

/-- Claim C4 (amended): only `control`-type messages are range-checked —
those with an out-of-range axis are rejected with no state change — while
`dual`-type messages are passed straight to `process_dual_input` with no
range check: their values are clamped to `[-1, 1]` and processed, which
always refreshes `last_command_time`. -/
theorem c4_amended_only_control_range_checked :
    (∀ (s : CarState) (now x y : ℚ), ¬(-1 ≤ x ∧ x ≤ 1 ∧ -1 ≤ y ∧ y ≤ 1) →
      handle_control s now (.control (some x) (some y)) = s) ∧
    (∀ (s : CarState) (now : ℚ) (l r : Option ℚ),
      handle_control s now (.dual l r) =
        process_dual_input s now (l.getD 0) (r.getD 0)) ∧
    (∀ (s : CarState) (now l r : ℚ),
      (process_dual_input s now l r).last_command_time = now) := by
  refine ⟨fun s now x y h => ?_, fun s now l r => rfl,
    fun s now l r => process_dual_input_last s now l r⟩
  simp only [handle_control, Option.getD_some]
  exact if_neg h

/-- Witness for the amended C4: a `control` message with `x = 2` at time 7
is rejected, leaving the state exactly as it was. -/
theorem c4_amended_only_control_range_checked_witness :
    handle_control s_init 7 (.control (some 2) (some 0)) = s_init :=
  c4_amended_only_control_range_checked.1 s_init 7 2 0 (by norm_num)

/-! ### Claim C9 -/

/-- Claim C9: a `control` message with a missing axis substitutes 0.0 for
it rather than rejecting the message; with both axes missing it is
accepted as `(0, 0)`, which stops both motors and refreshes
`last_command_time` to the current time. -/
theorem c9_missing_axes_default_zero :
    (∀ (s : CarState) (now : ℚ),
      (handle_control s now (.control none none)).motorA = stopped_output ∧
      (handle_control s now (.control none none)).motorB = stopped_output ∧
      (handle_control s now (.control none none)).last_command_time = now) ∧
    (∀ (s : CarState) (now y : ℚ), -1 ≤ y → y ≤ 1 →
      handle_control s now (.control none (some y)) =
        process_joystick_input s now 0 y) ∧
    (∀ (s : CarState) (now x : ℚ), -1 ≤ x → x ≤ 1 →
      handle_control s now (.control (some x) none) =
        process_joystick_input s now x 0) := by
  refine ⟨fun s now => ?_, fun s now y hy1 hy2 => ?_, fun s now x hx1 hx2 => ?_⟩
  · have h : handle_control s now (.control none none) =
        process_joystick_input s now 0 0 := by
      simp only [handle_control, Option.getD_none]
      exact if_pos (by norm_num)
    have h0 : process_joystick_input s now 0 0 =
        stop { s with last_command_time := now } := by
      simp only [process_joystick_input]
      rw [if_pos]
      constructor <;>
        norm_num [dead_zone_filter, clamp1, Config.JOYSTICK_DEAD_ZONE, abs,
          max_def, min_def]
    rw [h, h0]
    exact ⟨stop_motorA _, stop_motorB _, rfl⟩
  · simp only [handle_control, Option.getD_none, Option.getD_some]
    exact if_pos ⟨by norm_num, by norm_num, hy1, hy2⟩
  · simp only [handle_control, Option.getD_none, Option.getD_some]
    exact if_pos ⟨hx1, hx2, by norm_num, by norm_num⟩

/-- Witness for C9 at concrete inputs: both axes missing at time 5 stops
the motors and sets the clock; a single missing axis defaults to 0. -/
theorem c9_missing_axes_default_zero_witness :
    ((handle_control s_init 5 (.control none none)).motorA = stopped_output ∧
      (handle_control s_init 5 (.control none none)).motorB = stopped_output ∧
      (handle_control s_init 5 (.control none none)).last_command_time = 5) ∧
    handle_control s_init 5 (.control none (some (1/2))) =
      process_joystick_input s_init 5 0 (1/2) ∧
    handle_control s_init 5 (.control (some (1/2)) none) =
      process_joystick_input s_init 5 (1/2) 0 :=
  ⟨c9_missing_axes_default_zero.1 s_init 5,
    c9_missing_axes_default_zero.2.1 s_init 5 (1/2) (by norm_num) (by norm_num),
    c9_missing_axes_default_zero.2.2 s_init 5 (1/2) (by norm_num) (by norm_num)⟩

/-! ### Claim C8 -/

/-- Claim C8 counterexample: the joystick input `(x, y) = (1/4, 3/8)` is
accepted — both axes survive the per-axis dead-zone filter — yet the mixed
left magnitude is `|clamp(y - x)| = 1/8`, strictly below the dead zone
`0.15`, and `_map_speed` receives it and takes the return-0 guard
branch. -/
theorem c8_counterexample :
    dead_zone_filter (clamp1 (1/4)) ≠ 0 ∧
    dead_zone_filter (clamp1 (3/8)) ≠ 0 ∧
    (joystick_mix (1/4) (3/8)).1 = 1/8 ∧
    |(joystick_mix (1/4) (3/8)).1| < Config.JOYSTICK_DEAD_ZONE ∧
    map_speed |(joystick_mix (1/4) (3/8)).1| = 0 := by
  refine ⟨?_, ?_, ?_, ?_, ?_⟩ <;>
    norm_num [joystick_mix, dead_zone_filter, clamp1, map_speed,
      Config.JOYSTICK_DEAD_ZONE, abs, max_def, min_def]

/-- Claim C8 (amended): the dead-zone guard inside `_map_speed` is
reachable from both entry points — differential mixing and independent
levers can pass sub-dead-zone magnitudes on accepted, non-stop inputs —
and whenever that happens the guard yields duty cycle 0 for the affected
motor. -/
theorem c8_amended_guard_reachable :
    (∀ (s : CarState) (now x y : ℚ),
      ¬(dead_zone_filter (clamp1 x) = 0 ∧ dead_zone_filter (clamp1 y) = 0) →
      |(joystick_mix x y).1| < Config.JOYSTICK_DEAD_ZONE →
      (process_joystick_input s now x y).motorA.duty = 0) ∧
    (∀ (s : CarState) (now l r : ℚ),
      ¬(dead_zone_filter (clamp1 l) = 0 ∧ dead_zone_filter (clamp1 r) = 0) →
      |dead_zone_filter (clamp1 l)| < Config.JOYSTICK_DEAD_ZONE →
      (process_dual_input s now l r).motorA.duty = 0) := by
  constructor
  · intro s now x y h hlt
    have hm : map_speed |(joystick_mix x y).1| = 0 := by
      unfold map_speed
      exact if_pos hlt
    simp only [process_joystick_input]
    rw [if_neg h]
    simp [set_motor_a, set_motor_b, motor_output, hm, Config.MOTOR_A_INVERTED]
  · intro s now l r h hlt
    have hm : map_speed |dead_zone_filter (clamp1 l)| = 0 := by
      unfold map_speed
      exact if_pos hlt
    simp only [process_dual_input]
    rw [if_neg h]
    simp [set_motor_a, set_motor_b, motor_output, hm, Config.MOTOR_A_INVERTED]

/-- Witness for the amended C8: accepted joystick input `(1/4, 3/8)` and
accepted dual input `(0, 1/2)` both drive the left motor's duty to 0
through the guard. -/
theorem c8_amended_guard_reachable_witness :
    (process_joystick_input s_init 5 (1/4) (3/8)).motorA.duty = 0 ∧
    (process_dual_input s_init 5 0 (1/2)).motorA.duty = 0 :=
  ⟨c8_amended_guard_reachable.1 s_init 5 (1/4) (3/8)
      (by norm_num [dead_zone_filter, clamp1, Config.JOYSTICK_DEAD_ZONE, abs,
        max_def, min_def])
      (by norm_num [joystick_mix, dead_zone_filter, clamp1,
        Config.JOYSTICK_DEAD_ZONE, abs, max_def, min_def]),
    c8_amended_guard_reachable.2 s_init 5 0 (1/2)
      (by norm_num [dead_zone_filter, clamp1, Config.JOYSTICK_DEAD_ZONE, abs,
        max_def, min_def])
      (by norm_num [dead_zone_filter, clamp1, Config.JOYSTICK_DEAD_ZONE, abs,
        max_def, min_def])⟩

/-! ### Claim C5 -/

theorem foldl_captureIter_counter (l : List (List ℕ)) :
    ∀ b : BufState, (l.foldl captureIter b).counter = b.counter + l.length := by
  induction l with
  | nil => intro b; simp
  | cons hd tl ih =>
    intro b
    simp only [List.foldl_cons, List.length_cons, ih, captureIter]
    omega

theorem stateAt_counter (pubs : List (List ℕ)) (i : ℕ) :
    (stateAt pubs i).counter = min i pubs.length := by
  rw [stateAt, foldl_captureIter_counter]
  simp [initBuf, List.length_take]

theorem stateAt_counter_mono (pubs : List (List ℕ)) {i j : ℕ} (h : i ≤ j) :
    (stateAt pubs i).counter ≤ (stateAt pubs j).counter := by
  rw [stateAt_counter, stateAt_counter]
  exact min_le_min h le_rfl

/-- Core invariant of the polling loop: if the read counters arrive in
non-decreasing order and all are at least `last`, the emitted counters are
strictly increasing, and all exceed `last`. -/
theorem sessionLoop_emits_increasing (reads : List (Option (List ℕ) × ℕ)) :
    ∀ last : ℤ,
      List.Pairwise (· ≤ ·) (reads.map fun r => ((r.2 : ℤ))) →
      (∀ r ∈ reads, last ≤ (r.2 : ℤ)) →
      List.Pairwise (· < ·) ((sessionLoop last reads).map fun e => ((e.2 : ℤ))) ∧
      ∀ e ∈ sessionLoop last reads, last < (e.2 : ℤ) := by
  induction reads with
  | nil =>
    intro last _ _
    exact ⟨List.Pairwise.nil, by simp [sessionLoop]⟩
  | cons hd tl ih =>
    intro last hsorted hge
    obtain ⟨f, c⟩ := hd
    rw [List.map_cons, List.pairwise_cons] at hsorted
    have hge_tl : ∀ r ∈ tl, last ≤ (r.2 : ℤ) :=
      fun r hr => hge r (List.mem_cons_of_mem _ hr)
    match f with
    | none =>
      have := ih last hsorted.2 hge_tl
      simpa [sessionLoop] using this
    | some bs =>
      by_cases hcond : bs ≠ [] ∧ (c : ℤ) ≠ last
      · have hlast : last < (c : ℤ) :=
          lt_of_le_of_ne (hge (some bs, c) (List.mem_cons_self _ _))
            (Ne.symm hcond.2)
        have hc_le : ∀ r ∈ tl, (c : ℤ) ≤ (r.2 : ℤ) := by
          intro r hr
          exact hsorted.1 _ (List.mem_map_of_mem _ hr)
        obtain ⟨ihp, ihgt⟩ := ih (c : ℤ) hsorted.2 hc_le
        rw [show sessionLoop last ((some bs, c) :: tl) =
            (bs, c) :: sessionLoop (c : ℤ) tl by
          simp only [sessionLoop]; exact if_pos hcond]
        constructor
        · rw [List.map_cons]
          refine List.pairwise_cons.mpr ⟨?_, ihp⟩
          intro v hv
          obtain ⟨e, he, rfl⟩ := List.mem_map.mp hv
          exact ihgt e he
        · intro e he
          rcases List.mem_cons.mp he with rfl | he'
          · exact hlast
          · exact lt_trans hlast (ihgt e he')
      · rw [show sessionLoop last ((some bs, c) :: tl) = sessionLoop last tl by
          simp only [sessionLoop]; exact if_neg hcond]
        exact ih last hsorted.2 hge_tl

/-- Claim C5: for every sequence of publishes into the broadcast buffer and
every single stream session polling the buffer at non-decreasing times (a
non-decreasing sequence of completed-publish counts), the sequence of frame
versions the session emits is strictly increasing — no version is ever
emitted twice and no version smaller than an already-emitted one appears
(skipping versions is permitted). -/
theorem c5_session_versions_strictly_increasing (pubs : List (List ℕ))
    (idxs : List ℕ) (h : List.Pairwise (· ≤ ·) idxs) :
    List.Pairwise (· < ·) (session_versions (idxs.map (readAt pubs))) := by
  have hsorted : List.Pairwise (· ≤ ·)
      ((idxs.map (readAt pubs)).map fun r => ((r.2 : ℤ))) := by
    rw [List.map_map, List.pairwise_map]
    refine h.imp ?_
    intro i j hij
    simp only [Function.comp_apply, readAt]
    exact_mod_cast stateAt_counter_mono pubs hij
  have hge : ∀ r ∈ idxs.map (readAt pubs), (-1 : ℤ) ≤ (r.2 : ℤ) := by
    intro r _
    have h0 : (0 : ℤ) ≤ (r.2 : ℤ) := Int.ofNat_nonneg _
    linarith
  have hmain :=
    (sessionLoop_emits_increasing (idxs.map (readAt pubs)) (-1) hsorted hge).1
  rw [show (fun e : List ℕ × ℕ => ((e.2 : ℤ))) =
      (fun n : ℕ => ((n : ℤ))) ∘ Prod.snd from rfl, ← List.map_map,
    List.pairwise_map] at hmain
  exact hmain.imp fun hab => by exact_mod_cast hab

/-- Witness for C5: two publishes observed by a session polling at
publish-counts 0, 1, 2, 2 — the emitted versions are `[1, 2]`, strictly
increasing (and the repeated final poll emits nothing). -/
theorem c5_session_versions_strictly_increasing_witness :
    session_versions ([0, 1, 2, 2].map (readAt [[1], [2]])) = [1, 2] ∧
    List.Pairwise (· < ·) (session_versions ([0, 1, 2, 2].map (readAt [[1], [2]]))) :=
  ⟨by decide,
    c5_session_versions_strictly_increasing [[1], [2]] [0, 1, 2, 2] (by decide)⟩

end PiCar
